import Mathlib

/-!
Shallow embedding of `dockermap/map/input.py` (docker-map repository).

Python values flowing through the module are modelled by the inductive
`PyVal`.  Lists and tuples are conflated into the single constructor
`PyVal.list` (the module treats them identically: every `isinstance`
check tests `(list, tuple)` together).  The three canonical namedtuples
`SharedVolume`, `ContainerLink` and `PortBinding` are separate
constructors; because Python namedtuples are `tuple` subclasses, the
helper `asSeq` (which models `isinstance(value, (list, tuple))` plus
element access) also succeeds on them.  Booleans model Python `bool`,
which is an `int` subclass, so the scalar-port test `isSubType` accepts
them.  `PyVal.lazy` models a resolvable placeholder: `lazy_type` and
`uses_type_registry` live in `dockermap.functional`, outside the sources
at hand; they are modelled from the spec (an opaque marker recognised by
the registry and passed through unconverted).
-/

inductive PyVal where
  | none : PyVal
  | bool : Bool → PyVal
  | int : Int → PyVal
  | str : String → PyVal
  | list : List PyVal → PyVal
  | dict : List (PyVal × PyVal) → PyVal
  | lazy : Nat → PyVal
  | vol : PyVal → PyVal → PyVal
  | link : PyVal → PyVal → PyVal
  | port : PyVal → PyVal → PyVal → PyVal

/-- Errors raised by the module.  The source raises `ValueError` with a
message; the spec classifies those sites into `InvalidTypeError`
(messages starting "Invalid type") and `InvalidShapeError` (the
length/arity messages).  `indexError` models the uncaught `IndexError`
produced by `v1[0]` on an empty nested sequence. -/
inductive PyErr where
  | invalidType : String → PyErr
  | invalidShape : String → PyErr
  | indexError : PyErr
deriving DecidableEq

/-- `value is None`. -/
def pyIsNone : PyVal → Bool
  | .none => true
  | _ => false

/-- `isinstance(value, six.string_types)`. -/
def isStr : PyVal → Bool
  | .str _ => true
  | _ => false

/-- `isinstance(value, SharedVolume)`. -/
def isSharedVolume : PyVal → Bool
  | .vol _ _ => true
  | _ => false

/-- `isinstance(value, ContainerLink)`. -/
def isContainerLink : PyVal → Bool
  | .link _ _ => true
  | _ => false

/-- `isinstance(value, PortBinding)`. -/
def isPortBinding : PyVal → Bool
  | .port _ _ _ => true
  | _ => false

/-- Modelled from the spec: `isinstance(value, lazy_type)`, where
`lazy_type` is the resolvable-placeholder class owned by
`dockermap.functional` (not among the sources); the spec treats it as an
opaque marker. -/
def isLazyType : PyVal → Bool
  | .lazy _ => true
  | _ => false

/-- Modelled from the spec: `uses_type_registry(value)`, the
registry-membership test of `dockermap.functional` (not among the
sources); per the spec it recognises exactly the resolvable
placeholders. -/
def uses_type_registry : PyVal → Bool
  | .lazy _ => true
  | _ => false

/-- `isinstance(value, (list, tuple))` together with tuple unpacking:
namedtuples are `tuple` subclasses, so the three records also match. -/
def asSeq : PyVal → Option (List PyVal)
  | .list xs => some xs
  | .vol a b => some [a, b]
  | .link a b => some [a, b]
  | .port a b c => some [a, b, c]
  | _ => none

/-- `isinstance(value, sub_types)` with
`sub_types = six.string_types + (int, long)`; Python `bool` is an `int`
subclass, hence accepted. -/
def isSubType : PyVal → Bool
  | .str _ => true
  | .int _ => true
  | .bool _ => true
  | _ => false

/-- Python truthiness of a value (`bool(value)`); containers are truthy
iff nonempty, records are nonempty tuples, placeholder objects use the
default object truthiness. -/
def pyTruthy : PyVal → Bool
  | .none => false
  | .bool b => b
  | .int i => i != 0
  | .str s => s != ""
  | .list xs => !xs.isEmpty
  | .dict ps => !ps.isEmpty
  | .lazy _ => true
  | .vol _ _ => true
  | .link _ _ => true
  | .port _ _ _ => true

/-- Python `value == 'rw'`: only the string "rw" compares equal. -/
def pyEqRw : PyVal → Bool
  | .str s => s == "rw"
  | _ => false

/-- `isinstance(v, bool) or v in ('ro', 'rw')`. -/
def pyIsBoolOrMarker : PyVal → Bool
  | .bool _ => true
  | .str s => s == "ro" || s == "rw"
  | _ => false

/-- `type(value).__name__`.  `list`/`tuple` are conflated (the model
keeps one sequence constructor); under Python 2 strings/ints could also
print as `unicode`/`long`; the placeholder class name is modelled. -/
def pyTypeName : PyVal → String
  | .none => "NoneType"
  | .bool _ => "bool"
  | .int _ => "int"
  | .str _ => "str"
  | .list _ => "list"
  | .dict _ => "dict"
  | .lazy _ => "lazy_type"
  | .vol _ _ => "SharedVolume"
  | .link _ _ => "ContainerLink"
  | .port _ _ _ => "PortBinding"

/-- `read_only(value) = value and value != 'rw'` (lines 46-55).  Note
Python `and`: a falsy `value` is returned unchanged, otherwise the
boolean `value != 'rw'` is returned. -/
def read_only (value : PyVal) : PyVal :=
  if pyTruthy value then .bool (!(pyEqRw value)) else value

/-- Python `repr(value)`, as used by `str.format` on the argument tuple
in the nested-list error message.  Modelled structurally: string
escaping and the Python-2 `u` prefix are omitted, and the single
sequence constructor prints with brackets. -/
def pyRepr : PyVal → String
  | .none => "None"
  | .bool b => cond b "True" "False"
  | .int i => toString i
  | .str s => "\x27" ++ s ++ "\x27"
  | .lazy n => "lazy(" ++ Nat.repr n ++ ")"
  | .list xs => "[" ++ String.intercalate ", " (xs.attach.map fun x => pyRepr x.1) ++ "]"
  | .dict ps =>
      "\x7b" ++ String.intercalate ", "
        (ps.attach.map fun kv => pyRepr kv.1.1 ++ ": " ++ pyRepr kv.1.2) ++ "\x7d"
  | .vol a b => "SharedVolume(volume=" ++ pyRepr a ++ ", readonly=" ++ pyRepr b ++ ")"
  | .link a b => "ContainerLink(container=" ++ pyRepr a ++ ", alias=" ++ pyRepr b ++ ")"
  | .port a b c =>
      "PortBinding(exposed_port=" ++ pyRepr a ++ ", host_port=" ++ pyRepr b ++
        ", interface=" ++ pyRepr c ++ ")"
termination_by v => sizeOf v
decreasing_by
  all_goals simp_wf
  all_goals
    first
      | omega
      | (have h := List.sizeOf_lt_of_mem x.2
         omega)
      | (obtain ⟨⟨a, b⟩, hm⟩ := kv
         have h := List.sizeOf_lt_of_mem hm
         simp only [Prod.mk.sizeOf_spec] at h
         first
           | (show sizeOf a < 1 + sizeOf ps
              omega)
           | (show sizeOf b < 1 + sizeOf ps
              omega))

/-- Message of `get_shared_volume`'s list-length error (lines 98-99). -/
def svLenMsg (n : Nat) : String :=
  "Invalid element length; only tuples and lists of length 1-2 can be converted to a SharedVolume tuple; found length "
    ++ Nat.repr n ++ "."

/-- Message of the dict-length errors of `get_shared_volume` (lines
105-106) and `get_shared_host_volume` (lines 164-165). -/
def svDictMsg (n : Nat) : String :=
  "Invalid element length; only dicts with one element can be converted to a SharedVolume tuple. Found length "
    ++ Nat.repr n ++ "."

/-- Message of `_shared_host_volume_from_tuple`'s outer length error
(lines 132-133). -/
def hvLenMsg (n : Nat) : String :=
  "Invalid element length; only tuples and lists of length 1-3 can be converted to a SharedVolume tuple. Found length "
    ++ Nat.repr n ++ "."

/-- Message of `_shared_host_volume_from_tuple`'s nested-length error
(lines 125-126); `values` is the argument tuple being formatted. -/
def nestedLenMsg (values : PyVal) (n : Nat) : String :=
  "Nested list in " ++ pyRepr values ++ " must have exactly one or two entries; found "
    ++ Nat.repr n ++ "."

/-- Message of `get_container_link`'s length error (lines 189-190). -/
def linkLenMsg (n : Nat) : String :=
  "Invalid element length; only tuples and lists of length 1-2 can be converted to a ContainerLink tuple. Found length "
    ++ Nat.repr n ++ "."

/-- Message of `get_port_binding`'s sub-element error (lines 220-221). -/
def pbSubMsg : String :=
  "Invalid sub-element type or length. Needs to be a port number or a tuple / list: (port, interface)."

/-- Message of `get_port_binding`'s length error (lines 225-226); note
that, unlike the other length errors, it does not mention the actual
length. -/
def pbLenMsg : String :=
  "Invalid element length; only tuples and lists of length 2 or 3 can be converted to a PortBinding tuple."

/-- Message of the type errors of `get_list`, `get_shared_volume`,
`get_shared_host_volume` and `get_container_link` (lines 73-74, 107,
166, 191). -/
def typeMsgLTS (v : PyVal) : String :=
  "Invalid type; expected a list, tuple, or string type, found " ++ pyTypeName v ++ "."

/-- Message of `get_port_binding`'s type error (lines 227-228). -/
def pbTypeMsg (v : PyVal) : String :=
  "Invalid type; expected a list, tuple, int or string type, found " ++ pyTypeName v ++ "."

/-- Message of `_get_listed_tuples`' type error (lines 30-31). -/
def batchTypeMsg (elemName : String) (v : PyVal) : String :=
  "Invalid type; expected " ++ elemName ++ ", list, tuple, or dict; found " ++ pyTypeName v ++ "."

/-- `get_list` (lines 58-74): `None` gives `[]`; lists/tuples are copied
(`list(value)`, which flattens a namedtuple into its fields); strings
and resolvable placeholders are wrapped; anything else raises. -/
def get_list (value : PyVal) : Except PyErr (List PyVal) :=
  if pyIsNone value then .ok []
  else match asSeq value with
    | some xs => .ok xs
    | none =>
      if isStr value || isLazyType value || uses_type_registry value then .ok [value]
      else .error (.invalidType (typeMsgLTS value))

/-- `get_shared_volume` (lines 77-107). -/
def get_shared_volume (value : PyVal) : Except PyErr PyVal :=
  if isSharedVolume value then .ok value
  else if isStr value then .ok (.vol value (.bool false))
  else match asSeq value with
    | some xs =>
      match xs with
      | [a, b] => .ok (.vol a (read_only b))
      | [a] => .ok (.vol a (.bool false))
      | vs => .error (.invalidShape (svLenMsg vs.length))
    | none =>
      match value with
      | .dict pairs =>
        match pairs with
        | [kv] => .ok (.vol kv.1 (read_only kv.2))
        | ps => .error (.invalidShape (svDictMsg ps.length))
      | v => .error (.invalidType (typeMsgLTS v))

/-- `_shared_host_volume_from_tuple(*values)` (lines 110-133).  The
argument tuple `values` is modelled as a list.  In the two-element case
the source reads `v1[0]` before checking the nested length, so an empty
nested sequence raises `IndexError`. -/
def _shared_host_volume_from_tuple (values : List PyVal) : Except PyErr PyVal :=
  match values with
  | [a, b, c] => .ok (.vol (.list [a, b]) (read_only c))
  | [v0, v1] =>
    match asSeq v1 with
    | some svs =>
      match svs with
      | [] => .error .indexError
      | [v1_0, s1] => .ok (.vol (.list [v0, v1_0]) (read_only s1))
      | [v1_0] =>
        if pyIsBoolOrMarker v1_0 then .ok (.vol v0 (read_only v1_0))
        else .ok (.vol (.list [v0, v1_0]) (.bool false))
      | svs => .error (.invalidShape (nestedLenMsg (.list [v0, v1]) svs.length))
    | none =>
      if pyIsBoolOrMarker v1 then .ok (.vol v0 (read_only v1))
      else .ok (.vol (.list [v0, v1]) (.bool false))
  | [a] => .ok (.vol a (.bool false))
  | vs => .error (.invalidShape (hvLenMsg vs.length))

/-- `get_shared_host_volume` (lines 136-166). -/
def get_shared_host_volume (value : PyVal) : Except PyErr PyVal :=
  if isSharedVolume value then .ok value
  else if isStr value then .ok (.vol value (.bool false))
  else match asSeq value with
    | some xs => _shared_host_volume_from_tuple xs
    | none =>
      match value with
      | .dict pairs =>
        match pairs with
        | [kv] =>
          match asSeq kv.2 with
          | some vs => _shared_host_volume_from_tuple (kv.1 :: vs)
          | none => _shared_host_volume_from_tuple [kv.1, kv.2]
        | ps => .error (.invalidShape (svDictMsg ps.length))
      | v => .error (.invalidType (typeMsgLTS v))

/-- `get_container_link` (lines 169-191); note there is no dict branch,
so dict input falls through to the type error. -/
def get_container_link (value : PyVal) : Except PyErr PyVal :=
  if isContainerLink value then .ok value
  else if isStr value then .ok (.link value value)
  else match asSeq value with
    | some xs =>
      match xs with
      | [a, b] => .ok (.link a b)
      | [a] => .ok (.link a a)
      | vs => .error (.invalidShape (linkLenMsg vs.length))
    | none => .error (.invalidType (typeMsgLTS value))

/-- `get_port_binding` (lines 194-228).  `sub_types` is
strings/ints/longs (hence also Python bools); the placeholder class is
additionally accepted in the `host_bind` position but not as the whole
value. -/
def get_port_binding (value : PyVal) : Except PyErr PyVal :=
  if isPortBinding value then .ok value
  else if isSubType value then .ok (.port value .none .none)
  else match asSeq value with
    | some xs =>
      match xs with
      | [x0] =>
        if isSubType x0 then .ok (.port x0 .none .none)
        else .error (.invalidShape pbLenMsg)
      | [ex_port, host_bind] =>
        if isSubType host_bind || isLazyType host_bind || pyIsNone host_bind
            || uses_type_registry host_bind then
          .ok (.port ex_port host_bind .none)
        else match asSeq host_bind with
          | some [host_port, interface] => .ok (.port ex_port host_port interface)
          | _ => .error (.invalidShape pbSubMsg)
      | [a, b, c] => .ok (.port a b c)
      | _ => .error (.invalidShape pbLenMsg)
    | none => .error (.invalidType (pbTypeMsg value))

/-- The list comprehension `[conversion_func(e) for e in value]`:
elements are converted left to right and the first error aborts the
whole conversion. -/
def mapConv (f : PyVal → Except PyErr PyVal) : List PyVal → Except PyErr (List PyVal)
  | [] => .ok []
  | x :: t =>
    match f x with
    | .error e => .error e
    | .ok y =>
      match mapConv f t with
      | .error e => .error e
      | .ok ys => .ok (y :: ys)

/-- `_get_listed_tuples(value, element_type, conversion_func)` (lines
19-31).  `element_type` is modelled by its `isinstance` test `isElem`
plus its `__name__` (for the error message); `six.iteritems` yields the
dict's `(key, value)` tuples in order. -/
def _get_listed_tuples (isElem : PyVal → Bool) (elemName : String)
    (conversion_func : PyVal → Except PyErr PyVal) (value : PyVal) :
    Except PyErr (List PyVal) :=
  if pyIsNone value then .ok []
  else if isElem value || uses_type_registry value then .ok [value]
  else if isStr value then (conversion_func value).map fun r => [r]
  else match asSeq value with
    | some xs => mapConv conversion_func xs
    | none =>
      match value with
      | .dict pairs => mapConv conversion_func (pairs.map fun kv => .list [kv.1, kv.2])
      | v => .error (.invalidType (batchTypeMsg elemName v))

/-- `get_shared_volumes` (lines 231-239). -/
def get_shared_volumes : PyVal → Except PyErr (List PyVal) :=
  _get_listed_tuples isSharedVolume "SharedVolume" get_shared_volume

/-- `get_shared_host_volumes` (lines 242-250). -/
def get_shared_host_volumes : PyVal → Except PyErr (List PyVal) :=
  _get_listed_tuples isSharedVolume "SharedVolume" get_shared_host_volume

/-- `get_container_links` (lines 253-261). -/
def get_container_links : PyVal → Except PyErr (List PyVal) :=
  _get_listed_tuples isContainerLink "ContainerLink" get_container_link

/-- `get_port_bindings` (lines 264-272). -/
def get_port_bindings : PyVal → Except PyErr (List PyVal) :=
  _get_listed_tuples isPortBinding "PortBinding" get_port_binding

/-- `isPre ys xs` holds when the character list `ys` is an initial
segment of `xs` (used to express "the message contains ..."). -/
def isPre : List Char → List Char → Bool
  | [], _ => true
  | _ :: _, [] => false
  | y :: ys, x :: xs => y == x && isPre ys xs

/-- `hasSub xs ys` holds when `ys` occurs contiguously inside `xs`. -/
def hasSub : List Char → List Char → Bool
  | [], ys => ys.isEmpty
  | x :: t, ys => isPre ys (x :: t) || hasSub t ys

/-- `strHas m p`: the string `p` occurs as a substring of `m`. -/
def strHas (m p : String) : Bool :=
  hasSub m.data p.data

/-! ### Helper lemmas -/

theorem isPre_append (p xs ys : List Char) (h : isPre p xs = true) :
    isPre p (xs ++ ys) = true := by
  induction p generalizing xs with
  | nil => simp [isPre]
  | cons c cs ih =>
    cases xs with
    | nil => simp [isPre] at h
    | cons x t =>
      simp only [isPre, Bool.and_eq_true] at h
      simp only [List.cons_append, isPre, Bool.and_eq_true]
      exact ⟨h.1, ih t h.2⟩

theorem isPre_self (p t : List Char) : isPre p (p ++ t) = true := by
  induction p with
  | nil => simp [isPre]
  | cons c cs ih => simp [isPre, ih]

theorem hasSub_empty_pat (xs : List Char) : hasSub xs [] = true := by
  cases xs <;> simp [hasSub, isPre]

theorem hasSub_append_right (xs ys p : List Char) (h : hasSub ys p = true) :
    hasSub (xs ++ ys) p = true := by
  induction xs with
  | nil => simpa using h
  | cons x t ih => simp [List.cons_append, hasSub, ih]

theorem hasSub_append_left (xs ys p : List Char) (h : hasSub xs p = true) :
    hasSub (xs ++ ys) p = true := by
  induction xs with
  | nil =>
    cases p with
    | nil => exact hasSub_empty_pat ys
    | cons c cs => simp [hasSub] at h
  | cons x t ih =>
    simp only [hasSub, Bool.or_eq_true] at h
    rcases h with h | h
    · simp only [List.cons_append, hasSub, Bool.or_eq_true]
      exact Or.inl (by simpa using isPre_append p (x :: t) ys h)
    · simp [List.cons_append, hasSub, ih h]

theorem hasSub_self_append (p t : List Char) : hasSub (p ++ t) p = true := by
  cases p with
  | nil => simpa using hasSub_empty_pat t
  | cons c cs =>
    simp only [List.cons_append, hasSub, Bool.or_eq_true]
    exact Or.inl (by simpa using isPre_self (c :: cs) t)

theorem strHas_append_left (a b p : String) (h : strHas a p = true) :
    strHas (a ++ b) p = true := by
  unfold strHas at *
  rw [String.data_append]
  exact hasSub_append_left _ _ _ h

theorem strHas_append_right (a b p : String) (h : strHas b p = true) :
    strHas (a ++ b) p = true := by
  unfold strHas at *
  rw [String.data_append]
  exact hasSub_append_right _ _ _ h

theorem strHas_self (p : String) : strHas p p = true := by
  unfold strHas
  have := hasSub_self_append p.data []
  simpa using this

/-- A literal substring of the leading literal survives in a formatted
message `L ++ Nat.repr n ++ t`. -/
theorem strHas_lit_mid (L P t : String) (n : Nat) (hL : strHas L P = true) :
    strHas (L ++ Nat.repr n ++ t) P = true :=
  strHas_append_left _ _ _ (strHas_append_left _ _ _ hL)

/-- A formatted message `L ++ Nat.repr n ++ t` contains the decimal
representation of `n`. -/
theorem strHas_repr_mid (L t : String) (n : Nat) :
    strHas (L ++ Nat.repr n ++ t) (Nat.repr n) = true :=
  strHas_append_left _ _ _ (strHas_append_right _ _ _ (strHas_self _))

theorem mapConv_ok_spec (f : PyVal → Except PyErr PyVal) :
    ∀ xs l, mapConv f xs = .ok l →
      l.length = xs.length ∧
        ∀ i (h1 : i < xs.length) (h2 : i < l.length),
          f (xs.get ⟨i, h1⟩) = .ok (l.get ⟨i, h2⟩) := by
  intro xs
  induction xs with
  | nil =>
    intro l h
    simp only [mapConv, Except.ok.injEq] at h
    subst h
    exact ⟨rfl, fun i h1 h2 => absurd h1 (Nat.not_lt_zero i)⟩
  | cons x t ih =>
    intro l h
    simp only [mapConv] at h
    cases hfx : f x with
    | error e => rw [hfx] at h; simp at h
    | ok y =>
      rw [hfx] at h
      cases hmt : mapConv f t with
      | error e => rw [hmt] at h; simp at h
      | ok ys =>
        rw [hmt] at h
        simp only [Except.ok.injEq] at h
        subst h
        obtain ⟨hlen, hget⟩ := ih ys hmt
        refine ⟨by simp [hlen], ?_⟩
        intro i h1 h2
        cases i with
        | zero => simpa using hfx
        | succ j =>
          simp only [List.get_cons_succ]
          exact hget j (Nat.lt_of_succ_lt_succ h1) (Nat.lt_of_succ_lt_succ h2)

theorem mapConv_singleton (f : PyVal → Except PyErr PyVal) (x : PyVal) :
    mapConv f [x] = (f x).map fun r => [r] := by
  cases hfx : f x <;> simp [mapConv, hfx, Except.map]

/-! ### Claims -/

/-- C1: the spec claims `isReadonly` returns the boolean `false` for
every falsy indicator (and that the `readonly` field is always a
normalized boolean).  The code `value and value != 'rw'` instead returns
the raw falsy value itself: `read_only(None)` is `None`, `read_only(0)`
is `0`, and a record built from such a shorthand stores the raw
indicator in its `readonly` field — contradicting the claim and the
function's own `:rtype: bool` docstring. -/
theorem C1_read_only_returns_raw_falsy_value :
    read_only PyVal.none = PyVal.none ∧
    read_only (.int 0) = .int 0 ∧
    read_only (.str "") = .str "" ∧
    get_shared_volume (.list [.str "a", PyVal.none]) =
      .ok (.vol (.str "a") PyVal.none) ∧
    read_only PyVal.none ≠ PyVal.bool false :=
  ⟨rfl, rfl, rfl, rfl, fun h => PyVal.noConfusion h⟩

/-- C3: `get_port_binding` maps `(e, (h, i))` and `(e, h, i)` to the
record `(e, h, i)`, and `(e, hb)` with `hb` a scalar port, a resolvable
placeholder, or `None` to the record `(e, hb, None)`. -/
theorem C3_port_binding_disambiguation :
    (∀ e h i : PyVal, get_port_binding (.list [e, .list [h, i]]) = .ok (.port e h i)) ∧
    (∀ e h i : PyVal, get_port_binding (.list [e, h, i]) = .ok (.port e h i)) ∧
    (∀ e hb : PyVal,
      (isSubType hb || isLazyType hb || pyIsNone hb || uses_type_registry hb) = true →
      get_port_binding (.list [e, hb]) = .ok (.port e hb PyVal.none)) := by
  refine ⟨fun e h i => rfl, fun e h i => rfl, fun e hb hcond => ?_⟩
  show (if isSubType hb || isLazyType hb || pyIsNone hb || uses_type_registry hb then
          (.ok (.port e hb PyVal.none) : Except PyErr PyVal)
        else match asSeq hb with
          | some [host_port, interface] => .ok (.port e host_port interface)
          | _ => .error (.invalidShape pbSubMsg)) = .ok (.port e hb PyVal.none)
  rw [hcond]
  rfl

/-- Witness for C3 at a concrete input. -/
theorem C3_port_binding_witness :
    get_port_binding (.list [.int 80, .int 8080]) =
      .ok (.port (.int 80) (.int 8080) PyVal.none) :=
  C3_port_binding_disambiguation.2.2 (.int 80) (.int 8080) rfl

/-- C4: each converter returns an already-canonical record of its own
kind unchanged. -/
theorem C4_canonical_records_returned_unchanged :
    (∀ a b : PyVal, get_shared_volume (.vol a b) = .ok (.vol a b)) ∧
    (∀ a b : PyVal, get_shared_host_volume (.vol a b) = .ok (.vol a b)) ∧
    (∀ a b : PyVal, get_container_link (.link a b) = .ok (.link a b)) ∧
    (∀ a b c : PyVal, get_port_binding (.port a b c) = .ok (.port a b c)) :=
  ⟨fun _ _ => rfl, fun _ _ => rfl, fun _ _ => rfl, fun _ _ _ => rfl⟩

/-- C9: every batch converter maps a resolvable placeholder to the
one-element list holding it unchanged (the `uses_type_registry` branch
of `_get_listed_tuples`). -/
theorem C9_placeholder_passthrough (n : Nat) :
    get_shared_volumes (.lazy n) = .ok [.lazy n] ∧
    get_shared_host_volumes (.lazy n) = .ok [.lazy n] ∧
    get_container_links (.lazy n) = .ok [.lazy n] ∧
    get_port_bindings (.lazy n) = .ok [.lazy n] :=
  ⟨rfl, rfl, rfl, rfl⟩

/-- C10: placeholder pass-through is not compositional: the batch
volume converter returns `[p]` for a bare placeholder `p`, but raises
the type error on the one-element sequence `[p]`, because
`get_shared_volume` itself has no placeholder branch. -/
theorem C10_placeholder_not_compositional (n : Nat) :
    get_shared_volumes (.lazy n) = .ok [.lazy n] ∧
    get_shared_volumes (.list [.lazy n]) =
      .error (.invalidType (typeMsgLTS (.lazy n))) :=
  ⟨rfl, rfl⟩

theorem mapSingle_ok_length (e : Except PyErr PyVal) (l : List PyVal)
    (h : e.map (fun r => [r]) = .ok l) : l.length = 1 := by
  cases e with
  | error x => simp [Except.map] at h
  | ok r =>
    simp only [Except.map, Except.ok.injEq] at h
    rw [← h]
    rfl

/-- C5: batch conversion: `None` yields `[]`; a sequence of `n` elements
yields (on success) exactly `n` records, the `i`-th being the per-kind
converter applied to the `i`-th input element in order; a single-key
mapping yields the converter applied to its `(key, value)` pair, hence
exactly one record.  (The embedding is purely functional, so the input
is never mutated.) -/
theorem C5_batch_conversion :
    (get_shared_volumes PyVal.none = .ok [] ∧
     get_shared_host_volumes PyVal.none = .ok [] ∧
     get_container_links PyVal.none = .ok [] ∧
     get_port_bindings PyVal.none = .ok []) ∧
    (∀ xs l, get_shared_volumes (.list xs) = .ok l →
      l.length = xs.length ∧
        ∀ i (h1 : i < xs.length) (h2 : i < l.length),
          get_shared_volume (xs.get ⟨i, h1⟩) = .ok (l.get ⟨i, h2⟩)) ∧
    (∀ xs l, get_shared_host_volumes (.list xs) = .ok l →
      l.length = xs.length ∧
        ∀ i (h1 : i < xs.length) (h2 : i < l.length),
          get_shared_host_volume (xs.get ⟨i, h1⟩) = .ok (l.get ⟨i, h2⟩)) ∧
    (∀ xs l, get_container_links (.list xs) = .ok l →
      l.length = xs.length ∧
        ∀ i (h1 : i < xs.length) (h2 : i < l.length),
          get_container_link (xs.get ⟨i, h1⟩) = .ok (l.get ⟨i, h2⟩)) ∧
    (∀ xs l, get_port_bindings (.list xs) = .ok l →
      l.length = xs.length ∧
        ∀ i (h1 : i < xs.length) (h2 : i < l.length),
          get_port_binding (xs.get ⟨i, h1⟩) = .ok (l.get ⟨i, h2⟩)) ∧
    (∀ k v, get_shared_volumes (.dict [(k, v)]) =
      (get_shared_volume (.list [k, v])).map fun r => [r]) ∧
    (∀ k v, get_shared_host_volumes (.dict [(k, v)]) =
      (get_shared_host_volume (.list [k, v])).map fun r => [r]) ∧
    (∀ k v, get_container_links (.dict [(k, v)]) =
      (get_container_link (.list [k, v])).map fun r => [r]) ∧
    (∀ k v, get_port_bindings (.dict [(k, v)]) =
      (get_port_binding (.list [k, v])).map fun r => [r]) ∧
    (∀ k v l, get_shared_volumes (.dict [(k, v)]) = .ok l → l.length = 1) ∧
    (∀ k v l, get_shared_host_volumes (.dict [(k, v)]) = .ok l → l.length = 1) ∧
    (∀ k v l, get_container_links (.dict [(k, v)]) = .ok l → l.length = 1) ∧
    (∀ k v l, get_port_bindings (.dict [(k, v)]) = .ok l → l.length = 1) :=
  ⟨⟨rfl, rfl, rfl, rfl⟩,
   fun xs l h => mapConv_ok_spec get_shared_volume xs l h,
   fun xs l h => mapConv_ok_spec get_shared_host_volume xs l h,
   fun xs l h => mapConv_ok_spec get_container_link xs l h,
   fun xs l h => mapConv_ok_spec get_port_binding xs l h,
   fun k v => mapConv_singleton get_shared_volume (.list [k, v]),
   fun k v => mapConv_singleton get_shared_host_volume (.list [k, v]),
   fun k v => mapConv_singleton get_container_link (.list [k, v]),
   fun k v => mapConv_singleton get_port_binding (.list [k, v]),
   fun k v l h => mapSingle_ok_length (get_shared_volume (.list [k, v])) l
     (by rw [← mapConv_singleton]; exact h),
   fun k v l h => mapSingle_ok_length (get_shared_host_volume (.list [k, v])) l
     (by rw [← mapConv_singleton]; exact h),
   fun k v l h => mapSingle_ok_length (get_container_link (.list [k, v])) l
     (by rw [← mapConv_singleton]; exact h),
   fun k v l h => mapSingle_ok_length (get_port_binding (.list [k, v])) l
     (by rw [← mapConv_singleton]; exact h)⟩

/-- Witness for C5: the first element of a converted two-element batch
is the per-kind converter's result on the first input element. -/
theorem C5_batch_conversion_witness :
    get_shared_volume (.str "a") = .ok (.vol (.str "a") (.bool false)) :=
  (C5_batch_conversion.2.1 [.str "a", .str "b"]
      [.vol (.str "a") (.bool false), .vol (.str "b") (.bool false)] rfl).2 0
    (by decide) (by decide)

/-- C6 counterexample: on an unsupported type `get_list` raises the
"Invalid type" error — the spec's `InvalidTypeError` — not the
`InvalidShapeError` the claim names. -/
theorem C6_counterexample_type_error_kind :
    get_list (.int 5) =
      .error (.invalidType "Invalid type; expected a list, tuple, or string type, found int.") :=
  rfl

/-- C6 (amended): `get_list` returns `[]` for `None`, a same-order copy
of a sequence, a single-element list for a string or a resolvable
placeholder, and otherwise fails with `InvalidTypeError` naming the
offending type. -/
theorem C6_get_list_amended :
    get_list PyVal.none = .ok [] ∧
    (∀ xs, get_list (.list xs) = .ok xs) ∧
    (∀ s, get_list (.str s) = .ok [.str s]) ∧
    (∀ n, get_list (.lazy n) = .ok [.lazy n]) ∧
    (∀ v, pyIsNone v = false → asSeq v = none →
      (isStr v || isLazyType v || uses_type_registry v) = false →
      get_list v = .error (.invalidType (typeMsgLTS v))) := by
  refine ⟨rfl, fun xs => rfl, fun s => rfl, fun n => rfl, ?_⟩
  intro v h1 h2 h3
  simp [get_list, h1, h2, h3]

/-- Witness for C6 at a concrete unsupported input (a dict). -/
theorem C6_get_list_amended_witness :
    get_list (.dict []) = .error (.invalidType (typeMsgLTS (.dict []))) :=
  C6_get_list_amended.2.2.2.2 (.dict []) rfl rfl rfl

theorem from_tuple_pair (v0 v1 : PyVal) :
    _shared_host_volume_from_tuple [v0, v1] =
      match asSeq v1 with
      | some svs =>
        match svs with
        | [] => .error .indexError
        | [v1_0, s1] => .ok (.vol (.list [v0, v1_0]) (read_only s1))
        | [v1_0] =>
          if pyIsBoolOrMarker v1_0 then .ok (.vol v0 (read_only v1_0))
          else .ok (.vol (.list [v0, v1_0]) (.bool false))
        | svs => .error (.invalidShape (nestedLenMsg (.list [v0, v1]) svs.length))
      | none =>
        if pyIsBoolOrMarker v1 then .ok (.vol v0 (read_only v1))
        else .ok (.vol (.list [v0, v1]) (.bool false)) := rfl

/-- C2 counterexample: the claim's "in every remaining case the result
is `{volume: (v0, v1), readonly: false}`" fails when `v1` is a nested
sequence of length 3: the converter raises the nested-length
`InvalidShapeError` instead. -/
theorem C2_counterexample_nested_triple :
    get_shared_host_volume (.list [.str "c", .list [.str "h", .str "x", .str "y"]]) =
      .error (.invalidShape
        (nestedLenMsg (.list [.str "c", .list [.str "h", .str "x", .str "y"]]) 3)) ∧
    get_shared_host_volume (.list [.str "c", .list [.str "h", .str "x", .str "y"]]) ≠
      .ok (.vol (.list [.str "c", .list [.str "h", .str "x", .str "y"]]) (.bool false)) :=
  ⟨rfl, fun h => Except.noConfusion h⟩

/-- C2 (amended): host-bound volume disambiguation for 2- and 3-element
sequences: a 3-element sequence always gives `((v0, v1), read_only v2)`;
for a pair `(v0, v1)`, a bool/"ro"/"rw" second element gives
`(v0, read_only v1)`, a nested 2-sequence gives
`((v0, v1[0]), read_only v1[1])`, a nested 1-sequence gives
`(v0, read_only v1[0])` when its element is a bool/"ro"/"rw" and
`((v0, v1[0]), false)` otherwise, and a non-sequence second element
gives `((v0, v1), false)`; a nested sequence of length 3 or more raises
`InvalidShapeError`, and an empty nested sequence raises `IndexError`
(from the unguarded `v1[0]`). -/
theorem C2_host_volume_disambiguation (v0 v1 : PyVal) :
    (∀ v2, get_shared_host_volume (.list [v0, v1, v2]) =
      .ok (.vol (.list [v0, v1]) (read_only v2))) ∧
    (pyIsBoolOrMarker v1 = true →
      get_shared_host_volume (.list [v0, v1]) = .ok (.vol v0 (read_only v1))) ∧
    (∀ a b, asSeq v1 = some [a, b] →
      get_shared_host_volume (.list [v0, v1]) =
        .ok (.vol (.list [v0, a]) (read_only b))) ∧
    (∀ a, asSeq v1 = some [a] →
      get_shared_host_volume (.list [v0, v1]) =
        (if pyIsBoolOrMarker a then .ok (.vol v0 (read_only a))
         else .ok (.vol (.list [v0, a]) (.bool false)))) ∧
    (asSeq v1 = none → pyIsBoolOrMarker v1 = false →
      get_shared_host_volume (.list [v0, v1]) =
        .ok (.vol (.list [v0, v1]) (.bool false))) ∧
    (∀ a b c rest, asSeq v1 = some (a :: b :: c :: rest) →
      ∃ m, get_shared_host_volume (.list [v0, v1]) = .error (.invalidShape m)) ∧
    (asSeq v1 = some [] →
      get_shared_host_volume (.list [v0, v1]) = .error .indexError) := by
  have base : get_shared_host_volume (.list [v0, v1]) =
      _shared_host_volume_from_tuple [v0, v1] := rfl
  refine ⟨fun v2 => rfl, ?_, ?_, ?_, ?_, ?_, ?_⟩
  · intro hm
    have hseq : asSeq v1 = none := by
      cases v1 <;> first | rfl | simp [pyIsBoolOrMarker] at hm
    rw [base, from_tuple_pair, hseq]
    simp [hm]
  · intro a b hseq
    rw [base, from_tuple_pair, hseq]
  · intro a hseq
    rw [base, from_tuple_pair, hseq]
  · intro hseq hm
    rw [base, from_tuple_pair, hseq]
    simp [hm]
  · intro a b c rest hseq
    rw [base, from_tuple_pair, hseq]
    exact ⟨_, rfl⟩
  · intro hseq
    rw [base, from_tuple_pair, hseq]

/-- Witness for C2 at concrete inputs: the alias+flag pair form. -/
theorem C2_host_volume_disambiguation_witness :
    get_shared_host_volume (.list [.str "a", .bool true]) =
      .ok (.vol (.str "a") (.bool true)) :=
  (C2_host_volume_disambiguation (.str "a") (.bool true)).2.1 rfl

/-- C7 counterexample: `get_port_binding`'s length error message (here
at the empty sequence, actual length 0) names the accepted lengths
"2 or 3" but does not contain the actual length. -/
theorem C7_counterexample_port_length_omitted :
    get_port_binding (.list []) = .error (.invalidShape pbLenMsg) ∧
    strHas pbLenMsg (Nat.repr 0) = false ∧
    strHas pbLenMsg "2 or 3" = true :=
  ⟨rfl, by decide, by decide⟩

/-- C7 (amended): the volume, link and host-volume converters' length
errors include both the accepted length range and the actual length;
the port-binding converter's length error is a constant message naming
only the accepted lengths "2 or 3", omitting the actual length. -/
theorem C7_length_error_messages (xs : List PyVal) :
    (xs.length = 0 ∨ 3 ≤ xs.length →
      get_shared_volume (.list xs) = .error (.invalidShape (svLenMsg xs.length)) ∧
      strHas (svLenMsg xs.length) "1-2" = true ∧
      strHas (svLenMsg xs.length) (Nat.repr xs.length) = true) ∧
    (xs.length = 0 ∨ 3 ≤ xs.length →
      get_container_link (.list xs) = .error (.invalidShape (linkLenMsg xs.length)) ∧
      strHas (linkLenMsg xs.length) "1-2" = true ∧
      strHas (linkLenMsg xs.length) (Nat.repr xs.length) = true) ∧
    (xs.length = 0 ∨ 4 ≤ xs.length →
      get_shared_host_volume (.list xs) = .error (.invalidShape (hvLenMsg xs.length)) ∧
      strHas (hvLenMsg xs.length) "1-3" = true ∧
      strHas (hvLenMsg xs.length) (Nat.repr xs.length) = true) ∧
    (xs.length = 0 ∨ 4 ≤ xs.length →
      get_port_binding (.list xs) = .error (.invalidShape pbLenMsg) ∧
      strHas pbLenMsg "2 or 3" = true) := by
  refine ⟨?_, ?_, ?_, ?_⟩ <;> intro h
  · refine ⟨?_, strHas_lit_mid _ _ _ _ (by decide), strHas_repr_mid _ _ _⟩
    rcases xs with _ | ⟨a, _ | ⟨b, _ | ⟨c, t⟩⟩⟩ <;>
      first | rfl | (exfalso; rcases h with h | h <;> simp at h)
  · refine ⟨?_, strHas_lit_mid _ _ _ _ (by decide), strHas_repr_mid _ _ _⟩
    rcases xs with _ | ⟨a, _ | ⟨b, _ | ⟨c, t⟩⟩⟩ <;>
      first | rfl | (exfalso; rcases h with h | h <;> simp at h)
  · refine ⟨?_, strHas_lit_mid _ _ _ _ (by decide), strHas_repr_mid _ _ _⟩
    rcases xs with _ | ⟨a, _ | ⟨b, _ | ⟨c, _ | ⟨d, t⟩⟩⟩⟩ <;>
      first | rfl | (exfalso; rcases h with h | h <;> simp at h)
  · refine ⟨?_, by decide⟩
    rcases xs with _ | ⟨a, _ | ⟨b, _ | ⟨c, _ | ⟨d, t⟩⟩⟩⟩ <;>
      first | rfl | (exfalso; rcases h with h | h <;> simp at h)

/-- Witness for C7 at the concrete length-0 input for the host-volume
converter. -/
theorem C7_length_error_messages_witness :
    get_shared_host_volume (.list []) = .error (.invalidShape (hvLenMsg 0)) ∧
    strHas (hvLenMsg 0) "1-3" = true ∧
    strHas (hvLenMsg 0) (Nat.repr 0) = true :=
  (C7_length_error_messages []).2.2.1 (Or.inl rfl)

/-- C8: every per-kind converter raises `InvalidShapeError` on a
sequence of length 0 and on a sequence longer than its maximum (2 for
volume and link, 3 for host-bound volume and port binding). -/
theorem C8_sequence_length_bounds (xs : List PyVal) :
    (xs.length = 0 ∨ 3 ≤ xs.length →
      ∃ m, get_shared_volume (.list xs) = .error (.invalidShape m)) ∧
    (xs.length = 0 ∨ 3 ≤ xs.length →
      ∃ m, get_container_link (.list xs) = .error (.invalidShape m)) ∧
    (xs.length = 0 ∨ 4 ≤ xs.length →
      ∃ m, get_shared_host_volume (.list xs) = .error (.invalidShape m)) ∧
    (xs.length = 0 ∨ 4 ≤ xs.length →
      ∃ m, get_port_binding (.list xs) = .error (.invalidShape m)) := by
  refine ⟨?_, ?_, ?_, ?_⟩ <;> intro h <;>
    rcases xs with _ | ⟨a, _ | ⟨b, _ | ⟨c, _ | ⟨d, t⟩⟩⟩⟩ <;>
      first
        | exact ⟨_, rfl⟩
        | (exfalso; rcases h with h | h <;> simp at h)

/-- Witness for C8 at the empty sequence for all four converters. -/
theorem C8_sequence_length_bounds_witness :
    (∃ m, get_shared_volume (.list []) = .error (.invalidShape m)) ∧
    (∃ m, get_container_link (.list []) = .error (.invalidShape m)) ∧
    (∃ m, get_shared_host_volume (.list []) = .error (.invalidShape m)) ∧
    (∃ m, get_port_binding (.list []) = .error (.invalidShape m)) :=
  ⟨(C8_sequence_length_bounds []).1 (Or.inl rfl),
   (C8_sequence_length_bounds []).2.1 (Or.inl rfl),
   (C8_sequence_length_bounds []).2.2.1 (Or.inl rfl),
   (C8_sequence_length_bounds []).2.2.2 (Or.inl rfl)⟩
